import Mathlib

/-!
Verification of the multi-agent orchestration engine of the NVIDIA research
assistant repository (`backend/core/orchestrator.py` and the three agents it
drives), against its natural-language specification.

The Python code is shallowly embedded: every state-carrying dictionary becomes
an explicit record, every external collaborator (the three agents' backends and
each language-generation call) becomes a function supplied through an
environment record, and a Python exception raised by a collaborator is modelled
as `Except.error` carrying the exception message.  The graph built by
`_build_graph` is a fixed acyclic routing structure (start → rag → snowflake →
web_search → combiner with conditional skips), so its execution is embedded as
a terminating chain of node applications; alongside the terminal state the
embedding returns the list of provider nodes that were invoked, in invocation
order, so that claims about "which providers execute" are statable.
-/

namespace NvidiaOrch

/-! ## String utilities

Lexicographic comparison on code points, mirroring Python string comparison,
and an insertion sort mirroring Python `sorted`.  (Lean's built-in `String.lt`
does not reduce inside the kernel, so the comparison is re-implemented over
the character list.) -/

/-- Lexicographic order on character lists by code point, as Python compares
strings. -/
def charListLt : List Char → List Char → Bool
  | [], [] => false
  | [], _ :: _ => true
  | _ :: _, [] => false
  | a :: as, b :: bs =>
    if a.toNat < b.toNat then true
    else if b.toNat < a.toNat then false
    else charListLt as bs

/-- Python `a < b` on strings. -/
def strLt (a b : String) : Bool := charListLt a.toList b.toList

/-- Insert into a sorted list of strings (helper for `sortStrings`). -/
def insertSorted (x : String) : List String → List String
  | [] => [x]
  | y :: ys => if strLt y x then y :: insertSorted x ys else x :: y :: ys

/-- Python `sorted` on a list of strings (insertion sort by `strLt`). -/
def sortStrings : List String → List String
  | [] => []
  | x :: xs => insertSorted x (sortStrings xs)

/-! ## Data model (`backend/core/models.py`) -/

/-- `models.TimeRange`: a pair of period tokens of the form `YYYYqQ`. -/
structure TimeRange where
  start_quarter : String
  end_quarter : String
deriving DecidableEq

/-- `models.AgentType`: the provider enumeration, including the request-time
convenience member `ALL = "all"`. -/
inductive AgentType where
  | rag
  | snowflake
  | web_search
  | all
deriving DecidableEq

/-- The string value of each `AgentType` enum member. -/
def AgentType.value : AgentType → String
  | .rag => "rag"
  | .snowflake => "snowflake"
  | .web_search => "web_search"
  | .all => "all"

/-- JSON-like values, used for the optional `data` payload of an
`AgentResponse` (Python `Dict[str, Any]`). -/
inductive JsonVal where
  | s (v : String)
  | n (v : Int)
  | arr (v : List JsonVal)
  | obj (v : List (String × JsonVal))

/-- `models.AgentRequest`. -/
structure AgentRequest where
  query : String
  agents : List AgentType
  time_range : TimeRange

/-- `models.AgentResponse`: what each agent's `process_query` returns. -/
structure AgentResponse where
  agent_type : AgentType
  content : String
  data : Option (List (String × JsonVal)) := none

/-- The dict threaded through the LangGraph workflow by
`ResearchOrchestrator` (`initial_state` in `process_agent_request`).
`agent_responses` keeps Python-dict insertion order as an association list. -/
structure OrchState where
  query : String
  agents : List String
  time_range : Option TimeRange
  agent_responses : List (String × AgentResponse)
  combined_response : Option String
  error : Option String

/-! ## Association-list operations with Python-dict semantics -/

/-- Python `d[k] = v` on an insertion-ordered dict: replace in place if the
key is present, append otherwise. -/
def dictInsert (rs : List (String × AgentResponse)) (k : String) (v : AgentResponse) :
    List (String × AgentResponse) :=
  match rs with
  | [] => [(k, v)]
  | (k', v') :: rest => if k' = k then (k, v) :: rest else (k', v') :: dictInsert rest k v

/-- Python `d[k]` / `k in d` on the response dict. -/
def lookupResp (rs : List (String × AgentResponse)) (k : String) : Option AgentResponse :=
  match rs with
  | [] => none
  | (k', v) :: rest => if k' = k then some v else lookupResp rest k

/-- Whether an `Except` computation finished normally (no exception raised). -/
def exOk : Except String α → Bool
  | .ok _ => true
  | .error _ => false

@[simp] theorem exOk_ok (a : α) : exOk (.ok a : Except String α) = true := rfl

@[simp] theorem exOk_error (e : String) : exOk (.error e : Except String α) = false := rfl

/-! ## Orchestrator (`backend/core/orchestrator.py`)

The three agents' `process_query` coroutines and the combiner's
language-generation call are the orchestrator's external collaborators; they
are supplied as an environment.  A raised exception is `Except.error` with the
exception's message (`str(e)`). -/

/-- External collaborators of `ResearchOrchestrator`. -/
structure OrchEnv where
  rag_process_query : String → Option TimeRange → Except String AgentResponse
  snowflake_process_query : String → Option TimeRange → Except String AgentResponse
  web_search_process_query : String → Option TimeRange → Except String AgentResponse
  /-- `self.llm.ainvoke` in `_combine_responses`, as a function of the user
  query and the combined agent input interpolated into the prompt. -/
  combine_llm : String → String → Except String String

/-- `_start_node`: ensures `agent_responses` exists; in the typed state it
always does, so this is the identity. -/
def start_node (s : OrchState) : OrchState := s

/-- `_route_from_start`. -/
def route_from_start (s : OrchState) : String :=
  if s.agents.isEmpty then "end"
  else if s.agents.contains "rag" then "rag"
  else if s.agents.contains "snowflake" then "snowflake"
  else if s.agents.contains "web_search" then "web_search"
  else "end"

/-- `_route_after_rag`. -/
def route_after_rag (s : OrchState) : String :=
  if s.agents.contains "snowflake" then "snowflake"
  else if s.agents.contains "web_search" then "web_search"
  else "end"

/-- `_route_after_snowflake`. -/
def route_after_snowflake (s : OrchState) : String :=
  if s.agents.contains "web_search" then "web_search"
  else "end"

/-- `_run_rag_agent`: on normal return, store the response under `"rag"`;
on an exception, record only `state["error"]` (no entry is added to
`agent_responses`). -/
def run_rag_agent (env : OrchEnv) (s : OrchState) : OrchState :=
  match env.rag_process_query s.query s.time_range with
  | .ok response => { s with agent_responses := dictInsert s.agent_responses "rag" response }
  | .error e => { s with error := some ("RAG agent error: " ++ e) }

/-- `_run_snowflake_agent`. -/
def run_snowflake_agent (env : OrchEnv) (s : OrchState) : OrchState :=
  match env.snowflake_process_query s.query s.time_range with
  | .ok response => { s with agent_responses := dictInsert s.agent_responses "snowflake" response }
  | .error e => { s with error := some ("Snowflake agent error: " ++ e) }

/-- `_run_web_search_agent`. -/
def run_web_search_agent (env : OrchEnv) (s : OrchState) : OrchState :=
  match env.web_search_process_query s.query s.time_range with
  | .ok response => { s with agent_responses := dictInsert s.agent_responses "web_search" response }
  | .error e => { s with error := some ("Web Search agent error: " ++ e) }

/-- The labelled blocks the combiner builds from the accumulated responses,
in the fixed rag / snowflake / web_search order of `_combine_responses`. -/
def combineInputs (rs : List (String × AgentResponse)) : List String :=
  (match lookupResp rs "rag" with
    | some r => ["Historical Performance (RAG Agent):\n" ++ r.content]
    | none => []) ++
  (match lookupResp rs "snowflake" with
    | some r => ["Financial Metrics (Snowflake Agent):\n" ++ r.content]
    | none => []) ++
  (match lookupResp rs "web_search" with
    | some r => ["Real-time Insights (Web Search Agent):\n" ++ r.content]
    | none => [])

/-- `_combine_responses`: empty response dict yields the canned message;
otherwise the generation call is made and its failure degrades to a fixed
fallback string, never an exception. -/
def combine_responses (env : OrchEnv) (s : OrchState) : OrchState :=
  if s.agent_responses.isEmpty then
    { s with combined_response := some "No responses from any agents." }
  else
    let combined_input := String.intercalate "\n\n" (combineInputs s.agent_responses)
    match env.combine_llm s.query combined_input with
    | .ok content => { s with combined_response := some content }
    | .error e =>
      { s with error := some ("Error combining responses: " ++ e),
               combined_response := some "Error combining agent responses." }

/-! The compiled graph: each `run_from_X` executes node X and then follows the
conditional edge returned by the corresponding router.  The second component
of each result is the list of provider nodes invoked, in invocation order
(ghost instrumentation; it does not feed back into the state). -/

/-- Graph segment starting at the `web_search_agent` node. -/
def run_from_web (env : OrchEnv) (s : OrchState) : OrchState × List String :=
  (combine_responses env (run_web_search_agent env s), ["web_search"])

/-- Graph segment starting at the `snowflake_agent` node. -/
def run_from_snowflake (env : OrchEnv) (s : OrchState) : OrchState × List String :=
  let s' := run_snowflake_agent env s
  if route_after_snowflake s' = "web_search" then
    let p := run_from_web env s'
    (p.1, "snowflake" :: p.2)
  else
    (combine_responses env s', ["snowflake"])

/-- Graph segment starting at the `rag_agent` node. -/
def run_from_rag (env : OrchEnv) (s : OrchState) : OrchState × List String :=
  let s' := run_rag_agent env s
  if route_after_rag s' = "snowflake" then
    let p := run_from_snowflake env s'
    (p.1, "rag" :: p.2)
  else if route_after_rag s' = "web_search" then
    let p := run_from_web env s'
    (p.1, "rag" :: p.2)
  else
    (combine_responses env s', ["rag"])

/-- Execution of the compiled graph from the entry point. -/
def run_graph (env : OrchEnv) (s0 : OrchState) : OrchState × List String :=
  let s := start_node s0
  if route_from_start s = "rag" then run_from_rag env s
  else if route_from_start s = "snowflake" then run_from_snowflake env s
  else if route_from_start s = "web_search" then run_from_web env s
  else (combine_responses env s, [])

/-- `process_agent_request`: build `initial_state` from the request and invoke
the graph.  (The surrounding Python then reformats the terminal state into a
response dict; the claims are about the terminal state itself.) -/
def process_agent_request (env : OrchEnv) (req : AgentRequest) : OrchState × List String :=
  run_graph env
    { query := req.query
      agents := req.agents.map AgentType.value
      time_range := some req.time_range
      agent_responses := []
      combined_response := none
      error := none }

/-- The canonical filter: the requested tags restricted to the three concrete
provider tags, in canonical Document → Metrics → Web order. -/
def canonicalFilter (agents : List String) : List String :=
  (if agents.contains "rag" then ["rag"] else []) ++
  (if agents.contains "snowflake" then ["snowflake"] else []) ++
  (if agents.contains "web_search" then ["web_search"] else [])

/-- Whether the provider behind a given concrete tag returns normally in the
given environment, for the given query and time range. -/
def okFilter (env : OrchEnv) (q : String) (tr : Option TimeRange) (k : String) : Bool :=
  if k = "rag" then exOk (env.rag_process_query q tr)
  else if k = "snowflake" then exOk (env.snowflake_process_query q tr)
  else if k = "web_search" then exOk (env.web_search_process_query q tr)
  else false

/-! ## Snowflake agent trend classification
(`backend/agents/snowflake_agent.py`, `_determine_trend`)

Numeric values are modelled as integers: the function uses only subtraction
and sign comparisons of consecutive values. -/

/-- The consecutive-step differences `values[i+1] - values[i]`
(`diffs` in `_determine_trend`). -/
def stepDiffs (values : List Int) : List Int :=
  List.zipWith (fun a b => b - a) values values.tail

/-- `pos_diffs`: the number of strictly positive consecutive steps. -/
def posSteps (values : List Int) : Nat :=
  ((stepDiffs values).filter (fun d => decide (0 < d))).length

/-- `neg_diffs`: the number of strictly negative consecutive steps. -/
def negSteps (values : List Int) : Nat :=
  ((stepDiffs values).filter (fun d => decide (d < 0))).length

/-- `_determine_trend`.  The source also computes an unused first-to-last
difference, omitted here.  The returned strings are the source's Chinese
literals: `明显上升` "clearly rising", `总体上升，有波动` "rising with
fluctuation", `明显下降` "clearly falling", `总体下降，有波动` "falling with
fluctuation", `相对稳定，有波动` "relatively stable (with fluctuation)",
`数据不足以确定趋势` "not enough data to determine a trend". -/
def determine_trend (values : List Int) : String :=
  if values.length < 2 then "数据不足以确定趋势"
  else
    let pos_diffs := posSteps values
    let neg_diffs := negSteps values
    if pos_diffs > neg_diffs * 2 then "明显上升"
    else if pos_diffs > neg_diffs then "总体上升，有波动"
    else if neg_diffs > pos_diffs * 2 then "明显下降"
    else if neg_diffs > pos_diffs then "总体下降，有波动"
    else "相对稳定，有波动"

/-! ## Web search agent (`backend/agents/web_search_agent.py`)

The collaborator boundary is `WebSearchService.search` (a network call) and
the agent's language-generation call. `search_financial_news` and
`get_trending_topics` are the service's thin wrappers around `search`
(`backend/services/web_search_service.py`). -/

/-- One item returned by `WebSearchService.search`; the service always
populates all five keys. -/
structure SearchItem where
  title : String
  snippet : String
  link : String
  source : String
  date : String
deriving DecidableEq

/-- External collaborators of `WebSearchAgent`. -/
structure WebEnv where
  /-- `WebSearchService.search(query, num_results)`. -/
  search : String → Nat → List SearchItem
  /-- `self.llm.ainvoke`, as a function of the user query and the combined
  search-results text interpolated into the prompt. -/
  llm : String → String → Except String String

/-- `WebSearchService.search_financial_news`. -/
def search_financial_news (env : WebEnv) (query : String) (num_results : Nat) : List SearchItem :=
  env.search ("NVIDIA " ++ query ++ " financial earnings stock") num_results

/-- `WebSearchService.get_trending_topics`. -/
def get_trending_topics (env : WebEnv) : List SearchItem :=
  env.search "NVIDIA trending news" 5

/-- `WebSearchAgent._format_search_results`. -/
def format_search_results (results : List SearchItem)
    (section_title : String := "General Search Results") : String :=
  if results.isEmpty then section_title ++ ":\nNo results found."
  else
    String.intercalate "\n\n"
      ((section_title ++ ":") ::
        results.enum.map (fun p =>
          "Result " ++ toString (p.1 + 1) ++ ":\n" ++
          "Title: " ++ p.2.title ++ "\n" ++
          "Source: " ++ p.2.source ++ "\n" ++
          "Date: " ++ p.2.date ++ "\n" ++
          "Snippet: " ++ p.2.snippet ++ "\n"))

/-- The combined text handed to generation when the general search returned
items (`combined_text` in `WebSearchAgent.process_query`). -/
def web_combined_text (env : WebEnv) (query : String) : String :=
  format_search_results (env.search query 7) ++ "\n\n" ++
  format_search_results (search_financial_news env query 3) "Financial News" ++ "\n\n" ++
  format_search_results (get_trending_topics env) "Trending NVIDIA Topics"

/-- Result of one `WebSearchAgent.process_query` run, instrumented with the
(query, result-cap) pairs issued to the search service and whether the
generation call was made. -/
structure WebRun where
  response : AgentResponse
  searches : List (String × Nat)
  llm_called : Bool

/-- `WebSearchAgent.process_query`.  The time range is accepted but unused.
An exception from the generation call is caught and turned into an error
content string; the result-cap arguments are 7 (general), 3 (financial news),
5 (trending). -/
def web_process_query (env : WebEnv) (query : String) (time_range : Option TimeRange) : WebRun :=
  let _ := time_range
  let search_results := env.search query 7
  if search_results.isEmpty then
    { response :=
        { agent_type := .web_search
          content := "I couldn\x27t find any relevant information about NVIDIA from web search. Please try a different query." }
      searches := [(query, 7)]
      llm_called := false }
  else
    let financial_news := search_financial_news env query 3
    let trending_topics := get_trending_topics env
    let searches := [(query, 7),
                     ("NVIDIA " ++ query ++ " financial earnings stock", 3),
                     ("NVIDIA trending news", 5)]
    match env.llm query (web_combined_text env query) with
    | .ok c =>
      { response :=
          { agent_type := .web_search
            content := c
            data := some [("sources", .arr (search_results.map (fun r => .s r.source))),
                          ("result_count",
                            .n (Int.ofNat (search_results.length + financial_news.length +
                                            trending_topics.length)))] }
        searches := searches
        llm_called := true }
    | .error e =>
      { response :=
          { agent_type := .web_search
            content := "I encountered an error while searching for NVIDIA information: " ++ e }
        searches := searches
        llm_called := true }

/-! ## RAG agent (`backend/agents/rag_agent.py`)

Collaborators: the Pinecone service (`check_index_stats`,
`list_all_quarters`, `hybrid_search`) and the generation call.
`check_pinecone_status` is called only for logging and cannot raise (it
catches internally), so it is not modelled. -/

/-- One document returned by `PineconeService.hybrid_search`. -/
structure RagDoc where
  content : String
  quarter_label : String
  page : Nat
deriving DecidableEq

/-- External collaborators of `RAGAgent`. -/
structure RagEnv where
  /-- `check_index_stats()`: the total vector count of the index. -/
  total_vectors : Nat
  /-- `list_all_quarters()`: the quarter labels present in the index. -/
  available_quarters : List String
  /-- `hybrid_search(query, time_range, top_k)`. -/
  hybrid_search : String → Option TimeRange → Nat → List RagDoc
  /-- `self.llm.ainvoke`, as a function of the user query and the context
  text interpolated into the prompt. -/
  llm : String → String → Except String String

/-- Result of one `RAGAgent.process_query` run, instrumented with whether the
document search and the generation call were performed. -/
structure RagRun where
  response : AgentResponse
  search_called : Bool
  llm_called : Bool

/-- The out-of-range message of `RAGAgent.process_query`. -/
def rag_no_reports_message (tr : TimeRange) (available : List String) : String :=
  "I couldn\x27t find any reports for the specified time period (" ++
  tr.start_quarter ++ " to " ++ tr.end_quarter ++
  "). Available periods are: " ++ String.intercalate ", " available ++ "."

/-- The context passed to generation, built from the search results
(`context_text` in `RAGAgent.process_query`). -/
def rag_context_text (search_results : List RagDoc) : String :=
  String.intercalate "\n\n"
    (search_results.enum.map (fun p =>
      "Document " ++ toString (p.1 + 1) ++ ":\n" ++ p.2.content ++
      "\n\nSource: " ++ p.2.quarter_label ++ " - Page " ++ toString p.2.page))

/-- `RAGAgent.process_query`.  Order of checks as in the source: empty index
first; then, when a time range is given and the available-quarters list is
non-empty, the out-of-range short circuit; then the top-5 search; then
generation, whose exception is caught into an error content string. -/
def rag_process_query (env : RagEnv) (query : String) (time_range : Option TimeRange) : RagRun :=
  if env.total_vectors = 0 then
    { response :=
        { agent_type := .rag
          content := "The document database is empty. Please trigger report indexing before querying." }
      search_called := false
      llm_called := false }
  else
    let early : Option AgentResponse :=
      match time_range with
      | some tr =>
        if env.available_quarters ≠ [] ∧ tr.start_quarter ∉ env.available_quarters ∧
            tr.end_quarter ∉ env.available_quarters then
          some { agent_type := .rag
                 content := rag_no_reports_message tr env.available_quarters }
        else none
      | none => none
    match early with
    | some r => { response := r, search_called := false, llm_called := false }
    | none =>
      let search_results := env.hybrid_search query time_range 5
      if search_results.isEmpty then
        { response :=
            { agent_type := .rag
              content := "I couldn\x27t find any relevant information in NVIDIA\x27s quarterly reports for the specified time period. Please try a different query or time range." }
          search_called := true
          llm_called := false }
      else
        match env.llm query (rag_context_text search_results) with
        | .ok c =>
          let sources := sortStrings (search_results.map (fun r => r.quarter_label)).dedup
          { response :=
              { agent_type := .rag
                content := c
                data := some [("sources", .arr (sources.map .s)),
                              ("result_count", .n (Int.ofNat search_results.length))] }
            search_called := true
            llm_called := true }
        | .error e =>
          { response :=
              { agent_type := .rag
                content := "I encountered an error while searching NVIDIA\x27s quarterly reports: " ++ e }
            search_called := true
            llm_called := true }

/-! ## Structural lemmas about the orchestrator graph -/

theorem run_rag_agent_agents (env : OrchEnv) (s : OrchState) :
    (run_rag_agent env s).agents = s.agents := by
  unfold run_rag_agent; split <;> rfl

theorem run_snowflake_agent_agents (env : OrchEnv) (s : OrchState) :
    (run_snowflake_agent env s).agents = s.agents := by
  unfold run_snowflake_agent; split <;> rfl

theorem run_web_search_agent_agents (env : OrchEnv) (s : OrchState) :
    (run_web_search_agent env s).agents = s.agents := by
  unfold run_web_search_agent; split <;> rfl

theorem combine_responses_agent_responses (env : OrchEnv) (s : OrchState) :
    (combine_responses env s).agent_responses = s.agent_responses := by
  unfold combine_responses
  split
  · rfl
  · dsimp only
    split <;> rfl

theorem combine_responses_isSome (env : OrchEnv) (s : OrchState) :
    (combine_responses env s).combined_response.isSome = true := by
  unfold combine_responses
  split
  · rfl
  · dsimp only
    split <;> rfl

theorem contains_isEmpty_false {l : List String} {a : String} (h : l.contains a = true) :
    l.isEmpty = false := by
  cases l with
  | nil => simp at h
  | cons x xs => rfl

theorem route_from_start_none (s : OrchState)
    (hr : s.agents.contains "rag" = false)
    (hs : s.agents.contains "snowflake" = false)
    (hw : s.agents.contains "web_search" = false) :
    route_from_start s = "end" := by
  have hr' : ¬ ("rag" ∈ s.agents) := by simpa using hr
  have hs' : ¬ ("snowflake" ∈ s.agents) := by simpa using hs
  have hw' : ¬ ("web_search" ∈ s.agents) := by simpa using hw
  cases he : s.agents.isEmpty <;> simp [route_from_start, hr', hs', hw', he]

theorem dictInsert_not_mem (rs : List (String × AgentResponse)) (k : String) (v : AgentResponse)
    (h : k ∉ rs.map Prod.fst) : dictInsert rs k v = rs ++ [(k, v)] := by
  induction rs with
  | nil => rfl
  | cons hd tl ih =>
    simp only [List.map_cons, List.mem_cons] at h
    push_neg at h
    have hne : ¬ hd.1 = k := fun he => h.1 he.symm
    simp [dictInsert, hne, ih h.2]

theorem run_rag_agent_query (env : OrchEnv) (s : OrchState) :
    (run_rag_agent env s).query = s.query := by
  unfold run_rag_agent; split <;> rfl

theorem run_rag_agent_time_range (env : OrchEnv) (s : OrchState) :
    (run_rag_agent env s).time_range = s.time_range := by
  unfold run_rag_agent; split <;> rfl

theorem run_snowflake_agent_query (env : OrchEnv) (s : OrchState) :
    (run_snowflake_agent env s).query = s.query := by
  unfold run_snowflake_agent; split <;> rfl

theorem run_snowflake_agent_time_range (env : OrchEnv) (s : OrchState) :
    (run_snowflake_agent env s).time_range = s.time_range := by
  unfold run_snowflake_agent; split <;> rfl

theorem run_rag_agent_keys (env : OrchEnv) (s : OrchState)
    (h : "rag" ∉ s.agent_responses.map Prod.fst) :
    (run_rag_agent env s).agent_responses.map Prod.fst
      = s.agent_responses.map Prod.fst ++
        (if exOk (env.rag_process_query s.query s.time_range) then ["rag"] else []) := by
  unfold run_rag_agent
  cases hc : env.rag_process_query s.query s.time_range <;>
    simp [hc, dictInsert_not_mem _ _ _ h]

theorem run_snowflake_agent_keys (env : OrchEnv) (s : OrchState)
    (h : "snowflake" ∉ s.agent_responses.map Prod.fst) :
    (run_snowflake_agent env s).agent_responses.map Prod.fst
      = s.agent_responses.map Prod.fst ++
        (if exOk (env.snowflake_process_query s.query s.time_range) then ["snowflake"] else []) := by
  unfold run_snowflake_agent
  cases hc : env.snowflake_process_query s.query s.time_range <;>
    simp [hc, dictInsert_not_mem _ _ _ h]

theorem run_web_search_agent_keys (env : OrchEnv) (s : OrchState)
    (h : "web_search" ∉ s.agent_responses.map Prod.fst) :
    (run_web_search_agent env s).agent_responses.map Prod.fst
      = s.agent_responses.map Prod.fst ++
        (if exOk (env.web_search_process_query s.query s.time_range) then ["web_search"] else []) := by
  unfold run_web_search_agent
  cases hc : env.web_search_process_query s.query s.time_range <;>
    simp [hc, dictInsert_not_mem _ _ _ h]

theorem run_from_web_spec (env : OrchEnv) (s : OrchState)
    (h : "web_search" ∉ s.agent_responses.map Prod.fst) :
    (run_from_web env s).2 = ["web_search"]
    ∧ (run_from_web env s).1.agent_responses.map Prod.fst
        = s.agent_responses.map Prod.fst ++
          (if exOk (env.web_search_process_query s.query s.time_range) then ["web_search"] else [])
    ∧ (run_from_web env s).1.combined_response.isSome = true := by
  refine ⟨rfl, ?_, combine_responses_isSome env _⟩
  show (combine_responses env (run_web_search_agent env s)).agent_responses.map Prod.fst = _
  rw [combine_responses_agent_responses, run_web_search_agent_keys env s h]

theorem run_from_snowflake_spec (env : OrchEnv) (s : OrchState)
    (h1 : "snowflake" ∉ s.agent_responses.map Prod.fst)
    (h2 : "web_search" ∉ s.agent_responses.map Prod.fst) :
    (run_from_snowflake env s).2
      = "snowflake" :: (if s.agents.contains "web_search" then ["web_search"] else [])
    ∧ (run_from_snowflake env s).1.agent_responses.map Prod.fst
        = s.agent_responses.map Prod.fst
          ++ (if exOk (env.snowflake_process_query s.query s.time_range) then ["snowflake"] else [])
          ++ (if s.agents.contains "web_search" then
                (if exOk (env.web_search_process_query s.query s.time_range) then ["web_search"]
                 else [])
              else [])
    ∧ (run_from_snowflake env s).1.combined_response.isSome = true := by
  have hks := run_snowflake_agent_keys env s h1
  have hkw : "web_search" ∉ (run_snowflake_agent env s).agent_responses.map Prod.fst := by
    rw [hks]
    intro hmem
    rcases List.mem_append.mp hmem with hmem | hmem
    · exact h2 hmem
    · split at hmem <;> simp_all
  have hroute : route_after_snowflake (run_snowflake_agent env s)
      = (if s.agents.contains "web_search" then "web_search" else "end") := by
    unfold route_after_snowflake
    rw [run_snowflake_agent_agents]
  cases hw : s.agents.contains "web_search" with
  | true =>
    have hroute' : route_after_snowflake (run_snowflake_agent env s) = "web_search" := by
      rw [hroute, hw]; rfl
    have hweb := run_from_web_spec env (run_snowflake_agent env s) hkw
    unfold run_from_snowflake
    dsimp only
    rw [hroute']
    simp only [String.reduceEq, reduceIte, if_true, if_false, hw]
    refine ⟨by simp [hweb.1], ?_, hweb.2.2⟩
    rw [hweb.2.1, hks, run_snowflake_agent_query, run_snowflake_agent_time_range]
    try simp [List.append_assoc]
  | false =>
    have hroute' : route_after_snowflake (run_snowflake_agent env s) = "end" := by
      rw [hroute, hw]; rfl
    unfold run_from_snowflake
    dsimp only
    rw [hroute']
    simp only [String.reduceEq, reduceIte, if_true, if_false, hw]
    refine ⟨rfl, ?_, combine_responses_isSome env _⟩
    show (combine_responses env (run_snowflake_agent env s)).agent_responses.map Prod.fst = _
    rw [combine_responses_agent_responses, hks]
    simp

theorem run_from_rag_spec (env : OrchEnv) (s : OrchState)
    (h0 : "rag" ∉ s.agent_responses.map Prod.fst)
    (h1 : "snowflake" ∉ s.agent_responses.map Prod.fst)
    (h2 : "web_search" ∉ s.agent_responses.map Prod.fst) :
    (run_from_rag env s).2
      = "rag" :: ((if s.agents.contains "snowflake" then ["snowflake"] else [])
          ++ (if s.agents.contains "web_search" then ["web_search"] else []))
    ∧ (run_from_rag env s).1.agent_responses.map Prod.fst
        = s.agent_responses.map Prod.fst
          ++ (if exOk (env.rag_process_query s.query s.time_range) then ["rag"] else [])
          ++ (if s.agents.contains "snowflake" then
                (if exOk (env.snowflake_process_query s.query s.time_range) then ["snowflake"]
                 else [])
              else [])
          ++ (if s.agents.contains "web_search" then
                (if exOk (env.web_search_process_query s.query s.time_range) then ["web_search"]
                 else [])
              else [])
    ∧ (run_from_rag env s).1.combined_response.isSome = true := by
  have hkr := run_rag_agent_keys env s h0
  have hksnow : "snowflake" ∉ (run_rag_agent env s).agent_responses.map Prod.fst := by
    rw [hkr]
    intro hmem
    rcases List.mem_append.mp hmem with hmem | hmem
    · exact h1 hmem
    · split at hmem <;> simp_all
  have hkweb : "web_search" ∉ (run_rag_agent env s).agent_responses.map Prod.fst := by
    rw [hkr]
    intro hmem
    rcases List.mem_append.mp hmem with hmem | hmem
    · exact h2 hmem
    · split at hmem <;> simp_all
  have hroute : route_after_rag (run_rag_agent env s)
      = (if s.agents.contains "snowflake" then "snowflake"
         else if s.agents.contains "web_search" then "web_search" else "end") := by
    unfold route_after_rag
    rw [run_rag_agent_agents]
  cases hsn : s.agents.contains "snowflake" with
  | true =>
    have hroute' : route_after_rag (run_rag_agent env s) = "snowflake" := by
      rw [hroute, hsn]; rfl
    have hsnow := run_from_snowflake_spec env (run_rag_agent env s) hksnow hkweb
    unfold run_from_rag
    dsimp only
    rw [hroute']
    simp only [String.reduceEq, reduceIte, if_true, if_false, hsn]
    refine ⟨?_, ?_, hsnow.2.2⟩
    · rw [hsnow.1, run_rag_agent_agents]
      try simp
    · rw [hsnow.2.1, hkr, run_rag_agent_query, run_rag_agent_time_range,
        run_rag_agent_agents]
      try simp [List.append_assoc]
  | false =>
    cases hw : s.agents.contains "web_search" with
    | true =>
      have hroute' : route_after_rag (run_rag_agent env s) = "web_search" := by
        rw [hroute, hsn, hw]; rfl
      have hweb := run_from_web_spec env (run_rag_agent env s) hkweb
      unfold run_from_rag
      dsimp only
      rw [hroute']
      simp only [String.reduceEq, reduceIte, if_true, if_false, hsn, hw]
      refine ⟨?_, ?_, hweb.2.2⟩
      · simp [hweb.1]
      · rw [hweb.2.1, hkr, run_rag_agent_query, run_rag_agent_time_range]
        try simp [List.append_assoc]
    | false =>
      have hroute' : route_after_rag (run_rag_agent env s) = "end" := by
        rw [hroute, hsn, hw]; rfl
      unfold run_from_rag
      dsimp only
      rw [hroute']
      simp only [String.reduceEq, reduceIte, if_true, if_false, hsn, hw]
      refine ⟨rfl, ?_, combine_responses_isSome env _⟩
      show (combine_responses env (run_rag_agent env s)).agent_responses.map Prod.fst = _
      rw [combine_responses_agent_responses, hkr]
      simp

@[simp] theorem okFilter_rag (env : OrchEnv) (q : String) (tr : Option TimeRange) :
    okFilter env q tr "rag" = exOk (env.rag_process_query q tr) := by
  simp [okFilter]

@[simp] theorem okFilter_snowflake (env : OrchEnv) (q : String) (tr : Option TimeRange) :
    okFilter env q tr "snowflake" = exOk (env.snowflake_process_query q tr) := by
  simp [okFilter]

@[simp] theorem okFilter_web (env : OrchEnv) (q : String) (tr : Option TimeRange) :
    okFilter env q tr "web_search" = exOk (env.web_search_process_query q tr) := by
  simp [okFilter]

theorem canonicalFilter_filter (agents : List String) (p : String → Bool) :
    (canonicalFilter agents).filter p
      = (if agents.contains "rag" then (if p "rag" then ["rag"] else []) else []) ++
        (if agents.contains "snowflake" then (if p "snowflake" then ["snowflake"] else []) else []) ++
        (if agents.contains "web_search" then (if p "web_search" then ["web_search"] else []) else []) := by
  unfold canonicalFilter
  cases agents.contains "rag" <;> cases agents.contains "snowflake" <;>
    cases agents.contains "web_search" <;>
    simp [List.filter_append, List.filter] <;>
    (cases p "rag" <;> cases p "snowflake" <;> cases p "web_search" <;> simp_all)

/-- Master theorem about one full graph execution from a fresh initial state:
the invocation trace is exactly the canonical filter of the requested tags,
the terminal result keys are the invoked providers that returned normally (in
the same canonical order), and a combined response is always present. -/
theorem run_graph_spec (env : OrchEnv) (q : String) (tr : Option TimeRange)
    (agents : List String) :
    (run_graph env ⟨q, agents, tr, [], none, none⟩).2 = canonicalFilter agents
    ∧ (run_graph env ⟨q, agents, tr, [], none, none⟩).1.agent_responses.map Prod.fst
        = (canonicalFilter agents).filter (okFilter env q tr)
    ∧ (run_graph env ⟨q, agents, tr, [], none, none⟩).1.combined_response.isSome = true := by
  rw [canonicalFilter_filter]
  cases hr : agents.contains "rag" with
  | true =>
    have hr' : "rag" ∈ agents := by simpa using hr
    have hne : agents ≠ [] := by rintro rfl; simp at hr'
    have hroute : route_from_start ⟨q, agents, tr, [], none, none⟩ = "rag" := by
      simp [route_from_start, hr', hne]
    have hrag := run_from_rag_spec env ⟨q, agents, tr, [], none, none⟩
      (by simp) (by simp) (by simp)
    unfold run_graph start_node
    dsimp only
    rw [hroute]
    simp only [String.reduceEq, reduceIte, if_true, if_false]
    refine ⟨?_, ?_, hrag.2.2⟩
    · rw [hrag.1]
      simp [canonicalFilter, hr']
    · rw [hrag.2.1]
      simp [hr']
  | false =>
    have hr' : "rag" ∉ agents := by simpa using hr
    cases hs : agents.contains "snowflake" with
    | true =>
      have hs' : "snowflake" ∈ agents := by simpa using hs
      have hne : agents ≠ [] := by rintro rfl; simp at hs'
      have hroute : route_from_start ⟨q, agents, tr, [], none, none⟩ = "snowflake" := by
        simp [route_from_start, hr', hs', hne]
      have hsnow := run_from_snowflake_spec env ⟨q, agents, tr, [], none, none⟩
        (by simp) (by simp)
      unfold run_graph start_node
      dsimp only
      rw [hroute]
      simp only [String.reduceEq, reduceIte, if_true, if_false]
      refine ⟨?_, ?_, hsnow.2.2⟩
      · rw [hsnow.1]
        simp [canonicalFilter, hr', hs']
      · rw [hsnow.2.1]
        simp [hr', hs']
    | false =>
      have hs' : "snowflake" ∉ agents := by simpa using hs
      cases hw : agents.contains "web_search" with
      | true =>
        have hw' : "web_search" ∈ agents := by simpa using hw
        have hne : agents ≠ [] := by rintro rfl; simp at hw'
        have hroute : route_from_start ⟨q, agents, tr, [], none, none⟩ = "web_search" := by
          simp [route_from_start, hr', hs', hw', hne]
        have hweb := run_from_web_spec env ⟨q, agents, tr, [], none, none⟩ (by simp)
        unfold run_graph start_node
        dsimp only
        rw [hroute]
        simp only [String.reduceEq, reduceIte, if_true, if_false]
        refine ⟨?_, ?_, hweb.2.2⟩
        · rw [hweb.1]
          simp [canonicalFilter, hr', hs', hw']
        · rw [hweb.2.1]
          simp [hr', hs', hw']
      | false =>
        have hw' : "web_search" ∉ agents := by simpa using hw
        have hroute := route_from_start_none ⟨q, agents, tr, [], none, none⟩ hr hs hw
        unfold run_graph start_node
        dsimp only
        rw [hroute]
        simp only [String.reduceEq, reduceIte, if_true, if_false]
        refine ⟨?_, ?_, combine_responses_isSome env _⟩
        · simp [canonicalFilter, hr', hs', hw']
        · rw [combine_responses_agent_responses]
          simp [hr', hs', hw']

theorem canonicalFilter_sublist (agents : List String) :
    (canonicalFilter agents).Sublist ["rag", "snowflake", "web_search"] := by
  unfold canonicalFilter
  cases agents.contains "rag" <;> cases agents.contains "snowflake" <;>
    cases agents.contains "web_search" <;> simp

theorem canonicalFilter_nodup (agents : List String) :
    (canonicalFilter agents).Nodup := by
  unfold canonicalFilter
  cases agents.contains "rag" <;> cases agents.contains "snowflake" <;>
    cases agents.contains "web_search" <;> simp

theorem mem_canonicalFilter (agents : List String) (k : String) :
    k ∈ canonicalFilter agents ↔
      (k ∈ agents ∧ (k = "rag" ∨ k = "snowflake" ∨ k = "web_search")) := by
  unfold canonicalFilter
  constructor
  · intro h
    have hsplit := List.mem_append.mp h
    clear h
    rcases hsplit with h12 | h3
    · have hsplit' := List.mem_append.mp h12
      clear h12
      rcases hsplit' with h1 | h2
      · revert h1; split <;> intro h1 <;> simp_all
      · revert h2; split <;> intro h2 <;> simp_all
    · revert h3; split <;> intro h3 <;> simp_all
  · rintro ⟨hmem, rfl | rfl | rfl⟩ <;> simp [hmem]

/-- Master theorem at the `process_agent_request` level. -/
theorem process_agent_request_spec (env : OrchEnv) (req : AgentRequest) :
    (process_agent_request env req).2 = canonicalFilter (req.agents.map AgentType.value)
    ∧ (process_agent_request env req).1.agent_responses.map Prod.fst
        = (canonicalFilter (req.agents.map AgentType.value)).filter
            (okFilter env req.query (some req.time_range))
    ∧ (process_agent_request env req).1.combined_response.isSome = true :=
  run_graph_spec env req.query (some req.time_range) (req.agents.map AgentType.value)

/-- Every graph execution terminates in the combiner node. -/
theorem run_graph_combine_shape (env : OrchEnv) (s0 : OrchState) :
    ∃ s' t, run_graph env s0 = (combine_responses env s', t) := by
  unfold run_graph run_from_rag run_from_snowflake run_from_web start_node
  dsimp only
  repeat' split
  all_goals exact ⟨_, _, rfl⟩

/-- The section label the combiner prefixes to each present provider's
content. -/
def agentLabel : String → String
  | "rag" => "Historical Performance (RAG Agent):\n"
  | "snowflake" => "Financial Metrics (Snowflake Agent):\n"
  | _ => "Real-time Insights (Web Search Agent):\n"

/-! ## Concrete environments and requests used as witnesses and
counterexamples -/

/-- A sample successful agent response. -/
def sampleResponse (t : AgentType) (c : String) : AgentResponse :=
  { agent_type := t, content := c }

/-- Environment in which every provider and the combiner succeed. -/
def okEnv : OrchEnv :=
  { rag_process_query := fun _ _ => .ok (sampleResponse .rag "historical answer")
    snowflake_process_query := fun _ _ => .ok (sampleResponse .snowflake "metrics answer")
    web_search_process_query := fun _ _ => .ok (sampleResponse .web_search "web answer")
    combine_llm := fun _ _ => .ok "synthesized answer" }

/-- Environment in which the RAG agent's `process_query` raises `boom` and
everything else succeeds. -/
def ragFailEnv : OrchEnv :=
  { okEnv with rag_process_query := fun _ _ => .error "boom" }

/-- A well-formed sample time range. -/
def sampleRange : TimeRange := { start_quarter := "2021q1", end_quarter := "2021q4" }

/-- A request for all three concrete providers. -/
def reqThree : AgentRequest :=
  { query := "How did NVIDIA do?", agents := [.rag, .snowflake, .web_search],
    time_range := sampleRange }

/-- A request for the Document provider only. -/
def reqRagOnly : AgentRequest :=
  { query := "How did NVIDIA do?", agents := [.rag], time_range := sampleRange }

/-! ## Claims -/

/-- C1: the claim states that a requested provider set containing `All` is
expanded at `Start` into the three concrete providers, so the terminal
results map holds exactly the keys rag, snowflake and web_search.  The code
does the opposite: `_route_from_start` tests only the three concrete tags,
so `agents = ["all"]` routes directly to the combiner; the terminal results
map is empty, no provider is invoked, and the combined response is the
canned no-responses message.  (The enum member `ALL = "all"` and the
frontend's use of `["all"]` for "query everything" show the expansion was
the intent, so this is a bug in the code, exhibited here.) -/
theorem c1_all_is_never_expanded (env : OrchEnv) (q : String) (tr : TimeRange) :
    (process_agent_request env { query := q, agents := [AgentType.all], time_range := tr }).1.agent_responses = []
    ∧ (process_agent_request env { query := q, agents := [AgentType.all], time_range := tr }).2 = []
    ∧ (process_agent_request env { query := q, agents := [AgentType.all], time_range := tr }).1.combined_response
        = some "No responses from any agents." :=
  ⟨rfl, rfl, rfl⟩

/-- C2 (counterexample to the claim as stated): when the RAG agent raises,
the orchestrator does NOT store a failed result under the `"rag"` key — the
terminal results map has no `"rag"` entry at all; only the state's `error`
field records the failure. -/
theorem c2_counterexample :
    (process_agent_request ragFailEnv reqThree).2 = ["rag", "snowflake", "web_search"]
    ∧ (process_agent_request ragFailEnv reqThree).1.agent_responses.map Prod.fst
        = ["snowflake", "web_search"]
    ∧ (process_agent_request ragFailEnv reqThree).1.error = some "RAG agent error: boom" :=
  ⟨rfl, rfl, rfl⟩

/-- C2 (amended): if an invoked provider's `process_query` raises, the
orchestrator records the failure only in the state's `error` field and
stores no entry under that provider's key; the remaining requested providers
still execute (the invocation trace is the full canonical filter of the
requested set) and synthesis is still attempted, yielding a terminal state
with a non-null (possibly fallback) combined response. -/
theorem c2_provider_exception_isolation (env : OrchEnv) (req : AgentRequest) (e : String)
    (h : env.rag_process_query req.query (some req.time_range) = .error e) :
    "rag" ∉ (process_agent_request env req).1.agent_responses.map Prod.fst
    ∧ (process_agent_request env req).2 = canonicalFilter (req.agents.map AgentType.value)
    ∧ (process_agent_request env req).1.combined_response.isSome = true := by
  obtain ⟨t, kk, c⟩ := process_agent_request_spec env req
  refine ⟨?_, t, c⟩
  rw [kk]
  intro hmem
  have hok := (List.mem_filter.mp hmem).2
  rw [okFilter_rag, h] at hok
  simp [exOk] at hok

/-- Witness for C2 (amended) at a concrete raising environment. -/
theorem c2_provider_exception_isolation_witness :
    "rag" ∉ (process_agent_request ragFailEnv reqThree).1.agent_responses.map Prod.fst
    ∧ (process_agent_request ragFailEnv reqThree).2
        = canonicalFilter (reqThree.agents.map AgentType.value)
    ∧ (process_agent_request ragFailEnv reqThree).1.combined_response.isSome = true :=
  c2_provider_exception_isolation ragFailEnv reqThree "boom" rfl

/-- C3: for every request and environment, the terminal results map's keys
are a sublist of the canonical [rag, snowflake, web_search] order (Document
before Metrics before Web), and the combiner builds its labelled blocks from
any response dict in exactly that canonical key order. -/
theorem c3_canonical_order (env : OrchEnv) (req : AgentRequest) :
    ((process_agent_request env req).1.agent_responses.map Prod.fst).Sublist
        ["rag", "snowflake", "web_search"]
    ∧ ∀ rs, combineInputs rs
        = ["rag", "snowflake", "web_search"].filterMap
            (fun k => (lookupResp rs k).map (fun r => agentLabel k ++ r.content)) := by
  constructor
  · rw [(process_agent_request_spec env req).2.1]
    exact (List.filter_sublist _).trans (canonicalFilter_sublist _)
  · intro rs
    unfold combineInputs
    cases h1 : lookupResp rs "rag" <;> cases h2 : lookupResp rs "snowflake" <;>
      cases h3 : lookupResp rs "web_search" <;>
      simp [List.filterMap, h1, h2, h3, agentLabel]

/-- C4 (counterexample to the claim as stated): with `agents = [rag]` and a
RAG provider that raises, the single requested provider is invoked, yet the
terminal results map is empty — its keys are not "exactly that subset". -/
theorem c4_counterexample :
    (process_agent_request ragFailEnv reqRagOnly).2 = ["rag"]
    ∧ (process_agent_request ragFailEnv reqRagOnly).1.agent_responses.map Prod.fst = [] :=
  ⟨rfl, rfl⟩

/-- C4 (amended): for a request whose provider set contains only concrete
providers, the invocation trace is duplicate-free, contains only requested
providers, and contains every requested provider; and when every invoked
provider returns normally, the terminal results map's keys are exactly the
invocation trace (hence exactly the requested subset, in canonical order). -/
theorem c4_exact_subset (env : OrchEnv) (req : AgentRequest)
    (hconc : AgentType.all ∉ req.agents) :
    (process_agent_request env req).2.Nodup
    ∧ (∀ k ∈ (process_agent_request env req).2, k ∈ req.agents.map AgentType.value)
    ∧ (∀ a ∈ req.agents, a.value ∈ (process_agent_request env req).2)
    ∧ ((∀ k ∈ (process_agent_request env req).2,
          okFilter env req.query (some req.time_range) k = true) →
        (process_agent_request env req).1.agent_responses.map Prod.fst
          = (process_agent_request env req).2) := by
  obtain ⟨t, kk, _⟩ := process_agent_request_spec env req
  rw [t, kk]
  refine ⟨canonicalFilter_nodup _, ?_, ?_, ?_⟩
  · intro k hk
    exact ((mem_canonicalFilter _ _).mp hk).1
  · intro a ha
    refine (mem_canonicalFilter _ _).mpr ⟨List.mem_map_of_mem _ ha, ?_⟩
    cases a with
    | rag => exact Or.inl rfl
    | snowflake => exact Or.inr (Or.inl rfl)
    | web_search => exact Or.inr (Or.inr rfl)
    | all => exact absurd ha hconc
  · intro hok
    exact List.filter_eq_self.mpr hok

/-- Witness for C4 (amended) at a concrete request for the Metrics provider
only, in the all-success environment. -/
theorem c4_exact_subset_witness :
    (process_agent_request okEnv { query := "q", agents := [.snowflake], time_range := sampleRange }).2.Nodup
    ∧ (∀ k ∈ (process_agent_request okEnv { query := "q", agents := [.snowflake], time_range := sampleRange }).2,
        k ∈ ([AgentType.snowflake].map AgentType.value))
    ∧ (∀ a ∈ [AgentType.snowflake], a.value
        ∈ (process_agent_request okEnv { query := "q", agents := [.snowflake], time_range := sampleRange }).2)
    ∧ ((∀ k ∈ (process_agent_request okEnv { query := "q", agents := [.snowflake], time_range := sampleRange }).2,
          okFilter okEnv "q" (some sampleRange) k = true) →
        (process_agent_request okEnv { query := "q", agents := [.snowflake], time_range := sampleRange }).1.agent_responses.map Prod.fst
          = (process_agent_request okEnv { query := "q", agents := [.snowflake], time_range := sampleRange }).2) :=
  c4_exact_subset okEnv { query := "q", agents := [.snowflake], time_range := sampleRange }
    (by decide)

/-- A request whose time range is malformed: start period strictly greater
than end period. -/
def reqBadRange : AgentRequest :=
  { query := "How did NVIDIA do?", agents := [.rag],
    time_range := { start_quarter := "2021q4", end_quarter := "2021q1" } }

/-- C6 (counterexample to the claim as stated): with `start_quarter >
end_quarter`, `route` does not raise anything — there is no `InvalidRequest`
anywhere in the code — and the requested provider executes normally. -/
theorem c6_counterexample :
    strLt reqBadRange.time_range.end_quarter reqBadRange.time_range.start_quarter = true
    ∧ (process_agent_request okEnv reqBadRange).2 = ["rag"]
    ∧ (process_agent_request okEnv reqBadRange).1.error = none
    ∧ (process_agent_request okEnv reqBadRange).1.combined_response = some "synthesized answer" :=
  ⟨rfl, rfl, rfl, rfl⟩

/-- C6 (amended): the orchestrator performs no time-range validation at all;
even when the start period is strictly greater than the end period, the
request proceeds normally — exactly the requested providers are invoked and
a terminal state with a combined response is returned, with no error raised
before provider execution. -/
theorem c6_no_time_range_validation (env : OrchEnv) (q : String) (agents : List AgentType)
    (tr : TimeRange) (h : strLt tr.end_quarter tr.start_quarter = true) :
    (process_agent_request env { query := q, agents := agents, time_range := tr }).2
      = canonicalFilter (agents.map AgentType.value)
    ∧ (process_agent_request env { query := q, agents := agents, time_range := tr }).1.combined_response.isSome
        = true := by
  obtain ⟨t, _, c⟩ :=
    process_agent_request_spec env { query := q, agents := agents, time_range := tr }
  exact ⟨t, c⟩

/-- Witness for C6 (amended) at the concrete malformed range 2021q4–2021q1. -/
theorem c6_no_time_range_validation_witness :
    (process_agent_request okEnv reqBadRange).2
      = canonicalFilter ([AgentType.rag].map AgentType.value)
    ∧ (process_agent_request okEnv reqBadRange).1.combined_response.isSome = true :=
  c6_no_time_range_validation okEnv "How did NVIDIA do?" [.rag]
    (TimeRange.mk "2021q4" "2021q1") (by decide)

/-- C7: a request with an empty provider set skips directly to the combiner:
no provider is invoked, the terminal results map is empty, the combined
response is the canned no-responses text, and no error is recorded. -/
theorem c7_empty_provider_set (env : OrchEnv) (req : AgentRequest) (h : req.agents = []) :
    (process_agent_request env req).1.agent_responses = []
    ∧ (process_agent_request env req).2 = []
    ∧ (process_agent_request env req).1.combined_response = some "No responses from any agents."
    ∧ (process_agent_request env req).1.error = none := by
  simp [process_agent_request, run_graph, start_node, route_from_start, combine_responses, h]

/-- Witness for C7 at a concrete empty-selection request. -/
theorem c7_empty_provider_set_witness :
    (process_agent_request okEnv { query := "q", agents := [], time_range := sampleRange }).1.agent_responses = []
    ∧ (process_agent_request okEnv { query := "q", agents := [], time_range := sampleRange }).2 = []
    ∧ (process_agent_request okEnv { query := "q", agents := [], time_range := sampleRange }).1.combined_response
        = some "No responses from any agents."
    ∧ (process_agent_request okEnv { query := "q", agents := [], time_range := sampleRange }).1.error = none :=
  c7_empty_provider_set okEnv { query := "q", agents := [], time_range := sampleRange } rfl

/-- C8: whenever the combiner is reached with at least one accumulated
result and the synthesis generation call raises, the combiner swallows the
exception and sets the fixed fallback string as the combined response (and
records the failure in the error field); the request still reaches a
terminal state. -/
theorem c8_synthesis_failure_fallback (env : OrchEnv) (req : AgentRequest) (e : String)
    (hllm : ∀ q ci, env.combine_llm q ci = .error e)
    (hne : (process_agent_request env req).1.agent_responses ≠ []) :
    (process_agent_request env req).1.combined_response = some "Error combining agent responses."
    ∧ (process_agent_request env req).1.error = some ("Error combining responses: " ++ e) := by
  obtain ⟨s', t, hshape⟩ := run_graph_combine_shape env
    { query := req.query, agents := req.agents.map AgentType.value,
      time_range := some req.time_range, agent_responses := [],
      combined_response := none, error := none }
  have hpe : process_agent_request env req = (combine_responses env s', t) := hshape
  rw [hpe] at hne ⊢
  dsimp only at hne ⊢
  rw [combine_responses_agent_responses] at hne
  have hie : s'.agent_responses.isEmpty = false := by
    cases hh : s'.agent_responses with
    | nil => exact absurd hh hne
    | cons a l => rfl
  unfold combine_responses
  rw [hie]
  dsimp only
  rw [hllm]
  exact ⟨rfl, rfl⟩

/-- Environment in which every provider succeeds but the combiner's
generation call raises. -/
def llmFailEnv : OrchEnv :=
  { okEnv with combine_llm := fun _ _ => .error "llm down" }

/-- Witness for C8 at a concrete failing-synthesis environment. -/
theorem c8_synthesis_failure_fallback_witness :
    (process_agent_request llmFailEnv reqRagOnly).1.combined_response
      = some "Error combining agent responses."
    ∧ (process_agent_request llmFailEnv reqRagOnly).1.error
      = some ("Error combining responses: " ++ "llm down") :=
  c8_synthesis_failure_fallback llmFailEnv reqRagOnly "llm down" (fun _ _ => rfl)
    (fun hcontra => Nat.one_ne_zero (congrArg List.length hcontra))

/-- C5: for every numeric series of at least two values, `_determine_trend`
classifies exactly by the positive/negative consecutive-step counts: clearly
rising iff pos > 2·neg, rising with fluctuation iff pos > neg but not
pos > 2·neg, the symmetric falling classifications, and relatively stable
iff pos = neg; in particular step counts (3,1) give clearly rising, (2,1)
rising with fluctuation, and (1,1) relatively stable. -/
theorem c5_trend_classification :
    (∀ values : List Int, 2 ≤ values.length →
      ((determine_trend values = "明显上升" ↔ posSteps values > 2 * negSteps values)
      ∧ (determine_trend values = "总体上升，有波动" ↔
          (posSteps values > negSteps values ∧ ¬ posSteps values > 2 * negSteps values))
      ∧ (determine_trend values = "明显下降" ↔ negSteps values > 2 * posSteps values)
      ∧ (determine_trend values = "总体下降，有波动" ↔
          (negSteps values > posSteps values ∧ ¬ negSteps values > 2 * posSteps values))
      ∧ (determine_trend values = "相对稳定，有波动" ↔ posSteps values = negSteps values)))
    ∧ (posSteps [0, 1, 2, 3, 2] = 3 ∧ negSteps [0, 1, 2, 3, 2] = 1
        ∧ determine_trend [0, 1, 2, 3, 2] = "明显上升")
    ∧ (posSteps [0, 1, 2, 1] = 2 ∧ negSteps [0, 1, 2, 1] = 1
        ∧ determine_trend [0, 1, 2, 1] = "总体上升，有波动")
    ∧ (posSteps [0, 1, 0] = 1 ∧ negSteps [0, 1, 0] = 1
        ∧ determine_trend [0, 1, 0] = "相对稳定，有波动") := by
  refine ⟨?_, ⟨by decide, by decide, by decide⟩, ⟨by decide, by decide, by decide⟩,
    ⟨by decide, by decide, by decide⟩⟩
  intro values hlen
  unfold determine_trend
  rw [if_neg (by omega)]
  dsimp only
  split_ifs with h1 h2 h3 h4 <;>
    refine ⟨?_, ?_, ?_, ?_, ?_⟩ <;> simp <;> omega

/-- Witness for C5, instantiating the characterization at the concrete
series [0, 1, 2, 1] (step counts pos = 2, neg = 1). -/
theorem c5_trend_classification_witness :
    (determine_trend [0, 1, 2, 1] = "明显上升" ↔ posSteps [0, 1, 2, 1] > 2 * negSteps [0, 1, 2, 1])
    ∧ (determine_trend [0, 1, 2, 1] = "总体上升，有波动" ↔
        (posSteps [0, 1, 2, 1] > negSteps [0, 1, 2, 1]
          ∧ ¬ posSteps [0, 1, 2, 1] > 2 * negSteps [0, 1, 2, 1]))
    ∧ (determine_trend [0, 1, 2, 1] = "明显下降" ↔ negSteps [0, 1, 2, 1] > 2 * posSteps [0, 1, 2, 1])
    ∧ (determine_trend [0, 1, 2, 1] = "总体下降，有波动" ↔
        (negSteps [0, 1, 2, 1] > posSteps [0, 1, 2, 1]
          ∧ ¬ negSteps [0, 1, 2, 1] > 2 * posSteps [0, 1, 2, 1]))
    ∧ (determine_trend [0, 1, 2, 1] = "相对稳定，有波动" ↔ posSteps [0, 1, 2, 1] = negSteps [0, 1, 2, 1]) :=
  c5_trend_classification.1 [0, 1, 2, 1] (by decide)

/-- Environment in which the general web search returns nothing but the
fixed trending query would return one item. -/
def webNoGeneralEnv : WebEnv :=
  { search := fun q _ =>
      if q = "NVIDIA trending news" then
        [{ title := "t", snippet := "s", link := "l", source := "src", date := "d" }]
      else []
    llm := fun _ _ => .ok "web synthesis" }

/-- C9 (counterexample to the claim as stated): when the general sub-search
returns nothing, the agent returns its no-results response after issuing
only that one sub-search — even though the trending sub-search would have
returned an item, so it is not true that all three sub-searches are issued,
nor that the no-results response occurs only when all three return
nothing. -/
theorem c9_counterexample :
    webNoGeneralEnv.search "nvidia news" 7 = []
    ∧ webNoGeneralEnv.search "NVIDIA trending news" 5 ≠ []
    ∧ (web_process_query webNoGeneralEnv "nvidia news" none).searches = [("nvidia news", 7)]
    ∧ (web_process_query webNoGeneralEnv "nvidia news" none).llm_called = false
    ∧ (web_process_query webNoGeneralEnv "nvidia news" none).response.content
        = "I couldn\x27t find any relevant information about NVIDIA from web search. Please try a different query." :=
  ⟨rfl, fun h => Nat.one_ne_zero (congrArg List.length h), rfl, rfl, rfl⟩

/-- C9 (amended): the agent issues the general sub-search (cap 7) first; if
it returns nothing it replies with the non-failed no-results response
without issuing the other two sub-searches or calling generation; if it
returns items, it additionally issues the finance-flavored (cap 3) and
fixed trending (cap 5) sub-searches, formats all three result sets, and
invokes generation over the combined text (a generation failure is caught
into an error content string). -/
theorem c9_web_subsearch_flow (env : WebEnv) (query : String) (tr : Option TimeRange) :
    (env.search query 7 = [] →
      (web_process_query env query tr).searches = [(query, 7)]
      ∧ (web_process_query env query tr).llm_called = false
      ∧ (web_process_query env query tr).response.content
          = "I couldn\x27t find any relevant information about NVIDIA from web search. Please try a different query.")
    ∧ (env.search query 7 ≠ [] →
      (web_process_query env query tr).searches
        = [(query, 7), ("NVIDIA " ++ query ++ " financial earnings stock", 3),
           ("NVIDIA trending news", 5)]
      ∧ (web_process_query env query tr).llm_called = true
      ∧ (∀ c, env.llm query (web_combined_text env query) = .ok c →
          (web_process_query env query tr).response.content = c)
      ∧ (∀ e, env.llm query (web_combined_text env query) = .error e →
          (web_process_query env query tr).response.content
            = "I encountered an error while searching for NVIDIA information: " ++ e)) := by
  constructor
  · intro hempty
    unfold web_process_query
    simp [hempty]
  · intro hne
    obtain ⟨a, l, hh⟩ : ∃ a l, env.search query 7 = a :: l := by
      cases hh : env.search query 7 with
      | nil => exact absurd hh hne
      | cons a l => exact ⟨a, l, rfl⟩
    refine ⟨?_, ?_, ?_, ?_⟩
    · unfold web_process_query
      simp only [hh]
      cases hllm : env.llm query (web_combined_text env query) <;> simp [hllm]
    · unfold web_process_query
      simp only [hh]
      cases hllm : env.llm query (web_combined_text env query) <;> simp [hllm]
    · intro c hc
      unfold web_process_query
      simp only [hh, hc]
      simp
    · intro e he
      unfold web_process_query
      simp only [hh, he]
      simp

/-- Witness for C9 (amended): the empty-general-search leg at the concrete
environment of the counterexample. -/
theorem c9_web_subsearch_flow_witness :
    (web_process_query webNoGeneralEnv "nvidia news" none).searches = [("nvidia news", 7)]
    ∧ (web_process_query webNoGeneralEnv "nvidia news" none).llm_called = false
    ∧ (web_process_query webNoGeneralEnv "nvidia news" none).response.content
        = "I couldn\x27t find any relevant information about NVIDIA from web search. Please try a different query." :=
  (c9_web_subsearch_flow webNoGeneralEnv "nvidia news" none).1 rfl

/-- Environment in which the index is non-empty but the available-quarters
listing comes back empty, the search finds a document, and generation
succeeds. -/
def ragEmptyQuartersEnv : RagEnv :=
  { total_vectors := 1
    available_quarters := []
    hybrid_search := fun _ _ _ => [{ content := "doc text", quarter_label := "2022q1", page := 1 }]
    llm := fun _ _ => .ok "generated answer" }

/-- C10 (counterexample to the claim as stated): with an empty
available-quarters list, both endpoints of the 2021q1–2021q4 range are
(vacuously) absent from it, yet the agent does not return the no-reports
response — it performs the document search and the generation call and
returns the generated answer, because the source guards the short circuit
with `available_quarters` being non-empty. -/
theorem c10_counterexample :
    ragEmptyQuartersEnv.total_vectors ≠ 0
    ∧ ("2021q1" ∉ ragEmptyQuartersEnv.available_quarters)
    ∧ ("2021q4" ∉ ragEmptyQuartersEnv.available_quarters)
    ∧ (rag_process_query ragEmptyQuartersEnv "q" (some sampleRange)).search_called = true
    ∧ (rag_process_query ragEmptyQuartersEnv "q" (some sampleRange)).llm_called = true
    ∧ (rag_process_query ragEmptyQuartersEnv "q" (some sampleRange)).response.content
        = "generated answer" :=
  ⟨by decide, by decide, by decide, rfl, rfl, rfl⟩

/-- C10 (amended): for a non-null time range, when the index is non-empty,
the available-quarters list is non-empty, and both the range's start and end
quarters are absent from it, the agent returns the non-failed no-reports
response (which names the period and lists the available periods) without
performing any document search or generation call. -/
theorem c10_out_of_range_short_circuit (env : RagEnv) (query : String) (tr : TimeRange)
    (hvec : env.total_vectors ≠ 0) (hne : env.available_quarters ≠ [])
    (hstart : tr.start_quarter ∉ env.available_quarters)
    (hend : tr.end_quarter ∉ env.available_quarters) :
    (rag_process_query env query (some tr)).response.content
      = rag_no_reports_message tr env.available_quarters
    ∧ (rag_process_query env query (some tr)).search_called = false
    ∧ (rag_process_query env query (some tr)).llm_called = false := by
  unfold rag_process_query
  rw [if_neg hvec]
  dsimp only
  rw [if_pos ⟨hne, hstart, hend⟩]
  exact ⟨rfl, rfl, rfl⟩

/-- Environment for the C10 witness: index non-empty, quarters 2022q1 and
2022q2 available. -/
def ragOutOfRangeEnv : RagEnv :=
  { total_vectors := 1
    available_quarters := ["2022q1", "2022q2"]
    hybrid_search := fun _ _ _ => []
    llm := fun _ _ => .ok "x" }

/-- Witness for C10 (amended) at the concrete out-of-range request
2021q1–2021q4 against available quarters 2022q1, 2022q2. -/
theorem c10_out_of_range_short_circuit_witness :
    (rag_process_query ragOutOfRangeEnv "q" (some sampleRange)).response.content
      = rag_no_reports_message sampleRange ragOutOfRangeEnv.available_quarters
    ∧ (rag_process_query ragOutOfRangeEnv "q" (some sampleRange)).search_called = false
    ∧ (rag_process_query ragOutOfRangeEnv "q" (some sampleRange)).llm_called = false :=
  c10_out_of_range_short_circuit ragOutOfRangeEnv "q" sampleRange
    (by decide) (by decide) (by decide) (by decide)

end NvidiaOrch
